import Mathlib

/-!
Shallow embedding of the student-management backend.

The repository holds two near-duplicate implementations of the same CRUD
surface: `src/main.py` (embedded below as namespace `SMS.Main`) and
`src/backend/main.py` with `src/backend/schemas.py` (embedded as namespace
`SMS.Backend`).  `src/schemas.py` documents the schema of the `Main`
variant.  The document database is modelled as in-memory lists per
collection, in insertion order, with `find_one` as `List.find?` on that
order; BSON ObjectIds are modelled as natural numbers, their client-facing
stringified form as `toString`, and timestamps as natural numbers supplied
by the caller (`now`).  Each HTTP handler becomes a pure function from the
database state and its request data to a result (`Except Err α`, where an
`Err` is the `HTTPException` status and detail) paired with the state after
the call; a handler that raises before writing returns the state unchanged,
matching the absence of transactions in the source.
-/

namespace SMS

/-- HTTPException payload: status code and detail string. -/
structure Err where
  status : Nat
  detail : String
deriving Repr, DecidableEq

/-- Whitespace test used to model Python str.strip. -/
def pySpace (c : Char) : Bool :=
  c == ' ' || c == '\t' || c == '\n' || c == '\r'

/-- Fuelled substring replacement over character lists, following Python
str.replace: scan left to right, replacing every non-overlapping occurrence
of the pattern.  Fuel is the length of the scanned list, which bounds the
recursion. -/
def replaceAux (pat rep : List Char) : Nat → List Char → List Char
  | 0, s => s
  | _ + 1, [] => []
  | n + 1, c :: rest =>
    if !pat.isEmpty && pat.isPrefixOf (c :: rest) then
      rep ++ replaceAux pat rep n (List.drop pat.length (c :: rest))
    else
      c :: replaceAux pat rep n rest

/-- Model of Python str.replace (replace all occurrences). -/
def pyReplace (s pat rep : String) : String :=
  String.mk (replaceAux pat.data rep.data s.data.length s.data)

/-- Model of Python str.strip (trim whitespace on both sides). -/
def pyStrip (s : String) : String :=
  String.mk (((s.data.dropWhile pySpace).reverse.dropWhile pySpace).reverse)

/-- Model of Python str.startswith. -/
def pyStartsWith (s pre : String) : Bool :=
  pre.data.isPrefixOf s.data

/-- Value of a decimal digit character, if it is one. -/
def digitVal (c : Char) : Option Nat :=
  if c == '0' then some 0
  else if c == '1' then some 1
  else if c == '2' then some 2
  else if c == '3' then some 3
  else if c == '4' then some 4
  else if c == '5' then some 5
  else if c == '6' then some 6
  else if c == '7' then some 7
  else if c == '8' then some 8
  else if c == '9' then some 9
  else none

/-- Accumulating decimal parser over a character list. -/
def parseNatAux : List Char → Nat → Option Nat
  | [], acc => some acc
  | c :: rest, acc =>
    match digitVal c with
    | some d => parseNatAux rest (acc * 10 + d)
    | none => none

/-- Model of `bson.ObjectId(id_str)` parsing: ObjectIds are modelled as
naturals rendered with `toString`, so parsing is decimal parsing; a string
that is not such a rendering fails, as an invalid ObjectId literal does. -/
def to_object_id (s : String) : Option Nat :=
  if s.data.isEmpty then none else parseNatAux s.data 0

/-- Abstract model of the one-way password digest
(`hashlib.sha256(password.encode()).hexdigest()` in `src/main.py`).  The
spec scopes the hash out as a black-box one-way function, so it is modelled
as an injective tagged encoding; the tag guarantees the digest is never the
plaintext itself. -/
def hash_password (password : String) : String :=
  "sha256:" ++ password

/-- Public identity view returned by register/login and by the `Main`
authentication gate: stringified id, name, email, role — and nothing else. -/
structure UserView where
  id : String
  name : String
  email : String
  role : String
deriving Repr, DecidableEq

/-- Body of `POST /auth/register` in both variants. -/
structure RegisterRequest where
  name : String
  email : String
  password : String
deriving Repr, DecidableEq

/-- Body of `POST /auth/login` in both variants. -/
structure LoginRequest where
  email : String
  password : String
deriving Repr, DecidableEq

/-- Response of register/login: token plus identity view. -/
structure SessionInfo where
  token : String
  user : UserView
deriving Repr, DecidableEq

/-- One per-course entry of the dashboard progress list. -/
structure ProgressEntry where
  course_id : String
  attendance_records : Nat
  avg_grade : ℚ
deriving Repr, DecidableEq

namespace Main

/-- Identity document of `src/main.py` / `src/schemas.py`: the credential
field is `password_hash`; there is no plaintext credential field. -/
structure Student where
  name : String
  email : String
  password_hash : String
  role : String
  is_active : Bool
  created_at : Nat
  updated_at : Nat
deriving Repr, DecidableEq

/-- Session document of `src/main.py`: `user_id` is the owner's ObjectId. -/
structure Session where
  user_id : Nat
  token : String
  expires_at : Nat
  created_at : Nat
deriving Repr, DecidableEq

/-- Course document of `src/main.py`. -/
structure Course where
  code : String
  title : String
  description : Option String
  instructor : Option String
  capacity : Option Int
  created_at : Nat
  updated_at : Nat
deriving Repr, DecidableEq

/-- Enrollment document of `src/main.py`: ids are stored stringified. -/
structure Enrollment where
  student_id : String
  course_id : String
  status : String
  enrolled_at : Nat
deriving Repr, DecidableEq

/-- Attendance document of `src/main.py`. -/
structure Attendance where
  student_id : String
  course_id : String
  date : Nat
  status : String
deriving Repr, DecidableEq

/-- Grade document of `src/main.py`; the float grade is modelled as ℚ. -/
structure Grade where
  student_id : String
  course_id : String
  grade : ℚ
  label : Option String
  graded_at : Nat
deriving Repr, DecidableEq

/-- Announcement document of `src/main.py`. -/
structure Announcement where
  course_id : String
  title : String
  content : String
  created_by : String
  created_at : Nat
deriving Repr, DecidableEq

/-- Database state of the `Main` variant: one list per collection, in
insertion order; `nextId` generates fresh ObjectIds for the collections
whose ids are consulted. -/
structure State where
  students : List (Nat × Student)
  sessions : List Session
  courses : List (Nat × Course)
  enrollments : List Enrollment
  attendance : List Attendance
  grades : List Grade
  announcements : List Announcement
  nextId : Nat
deriving Repr, DecidableEq

/-- The empty database. -/
def State.empty : State :=
  ⟨[], [], [], [], [], [], [], 0⟩

/-- The duplicate-email guard of `register`:
`db["student"].find_one({"email": ...})` viewed as a test. -/
def email_registered (st : State) (email : String) : Bool :=
  st.students.any (fun u => u.2.email == email)

/-- `register` of `src/main.py` lines 106-131.  The fresh token that
`secrets.token_urlsafe(32)` would mint and the current time are inputs. -/
def register (st : State) (payload : RegisterRequest) (token : String) (now : Nat) :
    Except Err SessionInfo × State :=
  if email_registered st payload.email then
    (Except.error ⟨400, "Email already registered"⟩, st)
  else
    let student : Student :=
      ⟨payload.name, payload.email, hash_password payload.password, "student", true, now, now⟩
    let user_id := st.nextId
    let st1 : State :=
      { st with students := st.students ++ [(user_id, student)], nextId := st.nextId + 1 }
    let sess : Session := ⟨user_id, token, now + 7 * 24 * 60 * 60, now⟩
    let st2 : State := { st1 with sessions := st1.sessions ++ [sess] }
    (Except.ok ⟨token, ⟨toString user_id, student.name, student.email, "student"⟩⟩, st2)

/-- `login` of `src/main.py` lines 134-147. -/
def login (st : State) (payload : LoginRequest) (token : String) (now : Nat) :
    Except Err SessionInfo × State :=
  match st.students.find? (fun u => u.2.email == payload.email) with
  | none => (Except.error ⟨401, "Invalid credentials"⟩, st)
  | some u =>
    if u.2.password_hash ≠ hash_password payload.password then
      (Except.error ⟨401, "Invalid credentials"⟩, st)
    else
      let sess : Session := ⟨u.1, token, now + 7 * 24 * 60 * 60, now⟩
      (Except.ok ⟨token, ⟨toString u.1, u.2.name, u.2.email, u.2.role⟩⟩,
       { st with sessions := st.sessions ++ [sess] })

/-- `get_current_user` of `src/main.py` lines 56-68.  The header value is
`none` when absent; Python `not authorization` is also true of the empty
string.  Note the token is extracted by `replace("Bearer ", "").strip()`,
which never requires the bearer prefix; the session is looked up by token
alone and rejected only when `expires_at < now` (strict).  The handler
performs no writes, so the state is returned unchanged. -/
def get_current_user (st : State) (authorization : Option String) (now : Nat) :
    Except Err UserView × State :=
  match authorization with
  | none => (Except.error ⟨401, "Missing Authorization header"⟩, st)
  | some auth =>
    if auth = "" then (Except.error ⟨401, "Missing Authorization header"⟩, st)
    else
      match st.sessions.find? (fun s => s.token == pyStrip (pyReplace auth "Bearer " "")) with
      | none => (Except.error ⟨401, "Invalid token"⟩, st)
      | some sess =>
        if sess.expires_at < now then
          (Except.error ⟨401, "Token expired"⟩, st)
        else
          match st.students.find? (fun u => u.1 == sess.user_id) with
          | none => (Except.error ⟨401, "User not found"⟩, st)
          | some u =>
            (Except.ok ⟨toString u.1, u.2.name, u.2.email, u.2.role⟩, st)

/-- Body of `POST /courses` in the `Main` variant. -/
structure CourseCreate where
  code : String
  title : String
  description : Option String
  instructor : Option String
  capacity : Option Int
deriving Repr, DecidableEq

/-- `create_course` of `src/main.py` lines 159-169: admin-only, then
course-code uniqueness, then insert. -/
def create_course (st : State) (user : UserView) (payload : CourseCreate) (now : Nat) :
    Except Err (String × Course) × State :=
  if user.role ≠ "admin" then
    (Except.error ⟨403, "Only admin can create courses"⟩, st)
  else if st.courses.any (fun c => c.2.code == payload.code) then
    (Except.error ⟨400, "Course code exists"⟩, st)
  else
    let course : Course :=
      ⟨payload.code, payload.title, payload.description, payload.instructor,
       payload.capacity, now, now⟩
    let cid := st.nextId
    (Except.ok (toString cid, course),
     { st with courses := st.courses ++ [(cid, course)], nextId := st.nextId + 1 })

/-- The duplicate-enrollment guard of `enroll_course`:
`db["enrollment"].find_one({"student_id": ..., "course_id": ...})` as a test. -/
def already_enrolled (st : State) (student_id course_id : String) : Bool :=
  st.enrollments.any (fun e => e.student_id == student_id && e.course_id == course_id)

/-- `enroll_course` of `src/main.py` lines 185-200: parse the id (400 on
bad format), require the course (404), reject a duplicate pair (400), else
insert. -/
def enroll_course (st : State) (user : UserView) (course_id : String) (now : Nat) :
    Except Err String × State :=
  match to_object_id course_id with
  | none => (Except.error ⟨400, "Invalid id format"⟩, st)
  | some oid =>
    match st.courses.find? (fun c => c.1 == oid) with
    | none => (Except.error ⟨404, "Course not found"⟩, st)
    | some _ =>
      if already_enrolled st user.id course_id then
        (Except.error ⟨400, "Already enrolled"⟩, st)
      else
        (Except.ok "Enrolled successfully",
         { st with enrollments := st.enrollments ++ [⟨user.id, course_id, "enrolled", now⟩] })

/-- Body of `POST /attendance/mark` in the `Main` variant (`status`
defaults to "present" at the HTTP layer; no value restriction). -/
structure AttendanceMarkRequest where
  course_id : String
  status : String
deriving Repr, DecidableEq

/-- `mark_attendance` of `src/main.py` lines 219-231: requires an
enrollment of the caller for the course (400 otherwise) and never consults
the course collection. -/
def mark_attendance (st : State) (user : UserView) (payload : AttendanceMarkRequest) (now : Nat) :
    Except Err String × State :=
  if already_enrolled st user.id payload.course_id then
    (Except.ok "Attendance marked",
     { st with attendance := st.attendance ++ [⟨user.id, payload.course_id, now, payload.status⟩] })
  else
    (Except.error ⟨400, "Not enrolled in the course"⟩, st)

/-- Body of `POST /grades` in the `Main` variant. -/
structure GradeCreate where
  course_id : String
  grade : ℚ
  label : Option String
deriving Repr, DecidableEq

/-- `add_grade` of `src/main.py` lines 249-263: requires an enrollment of
the caller for the course (400 otherwise), then inserts. -/
def add_grade (st : State) (user : UserView) (payload : GradeCreate) (now : Nat) :
    Except Err String × State :=
  if already_enrolled st user.id payload.course_id then
    (Except.ok "Grade added",
     { st with grades :=
        st.grades ++ [⟨user.id, payload.course_id, payload.grade, payload.label, now⟩] })
  else
    (Except.error ⟨400, "Not enrolled in the course"⟩, st)

/-- Body of `POST /announcements` in the `Main` variant. -/
structure AnnouncementCreate where
  course_id : String
  title : String
  content : String
deriving Repr, DecidableEq

/-- `create_announcement` of `src/main.py` lines 281-295: requires the
course to exist (404 after a 400 on malformed id), then inserts. -/
def create_announcement (st : State) (user : UserView) (payload : AnnouncementCreate) (now : Nat) :
    Except Err String × State :=
  match to_object_id payload.course_id with
  | none => (Except.error ⟨400, "Invalid id format"⟩, st)
  | some oid =>
    match st.courses.find? (fun c => c.1 == oid) with
    | none => (Except.error ⟨404, "Course not found"⟩, st)
    | some _ =>
      (Except.ok "Announcement posted",
       { st with announcements :=
          st.announcements ++ [⟨payload.course_id, payload.title, payload.content, user.id, now⟩] })

/-- The per-course average of `dashboard` in `src/main.py` line 319:
`sum(grades) / max(len(grades), 1)`. -/
def avg_of (grades : List ℚ) : ℚ :=
  (grades.foldl (fun a b => a + b) 0) / ((max grades.length 1 : Nat) : ℚ)

/-- Parse the course ids of a list of enrollments, failing like
`to_object_id` does at the first malformed id. -/
def parse_course_ids (st : State) : List Enrollment → Except Err (List Nat)
  | [] => Except.ok []
  | e :: rest =>
    match to_object_id e.course_id with
    | none => Except.error ⟨400, "Invalid id format"⟩
    | some oid =>
      match parse_course_ids st rest with
      | Except.error err => Except.error err
      | Except.ok ids => Except.ok (oid :: ids)

/-- The grade documents of `dashboard` for one caller and one stringified
course id: `db["grade"].find({"student_id": ..., "course_id": ...})`. -/
def grade_docs (st : State) (student_id course_id : String) : List Grade :=
  st.grades.filter (fun g => g.student_id == student_id && g.course_id == course_id)

/-- `dashboard` of `src/main.py` lines 306-326, restricted to the progress
list it computes: the caller's enrollments are mapped to parsed course ids,
the matching courses fetched, and each yields attendance count and average
grade with divisor `max(len, 1)`. -/
def dashboard (st : State) (user : UserView) : Except Err (List ProgressEntry) :=
  match parse_course_ids st (st.enrollments.filter (fun e => e.student_id == user.id)) with
  | Except.error err => Except.error err
  | Except.ok course_ids =>
    Except.ok ((st.courses.filter (fun c => course_ids.contains c.1)).map (fun c =>
      ⟨toString c.1,
       (st.attendance.filter
         (fun a => a.student_id == user.id && a.course_id == toString c.1)).length,
       avg_of ((grade_docs st user.id (toString c.1)).map (fun g => g.grade))⟩))

/-- One request to the `Main` variant, with the data the environment
supplies (fresh token, current time, raw Authorization header). -/
inductive Op where
  | opRegister (p : RegisterRequest) (token : String) (now : Nat)
  | opLogin (p : LoginRequest) (token : String) (now : Nat)
  | opCreateCourse (auth : Option String) (p : CourseCreate) (now : Nat)
  | opEnroll (auth : Option String) (course_id : String) (now : Nat)
  | opMarkAttendance (auth : Option String) (p : AttendanceMarkRequest) (now : Nat)
  | opAddGrade (auth : Option String) (p : GradeCreate) (now : Nat)
  | opAnnounce (auth : Option String) (p : AnnouncementCreate) (now : Nat)

/-- Run an authenticated handler behind the gate, as FastAPI `Depends`
does: a gate failure leaves the state untouched. -/
def withUser {α : Type} (st : State) (auth : Option String) (now : Nat)
    (k : UserView → Except Err α × State) : Except Err α × State :=
  match (get_current_user st auth now).1 with
  | Except.error e => (Except.error e, st)
  | Except.ok u => k u

/-- State transition of one request of the `Main` variant. -/
def step (st : State) : Op → State
  | Op.opRegister p token now => (register st p token now).2
  | Op.opLogin p token now => (login st p token now).2
  | Op.opCreateCourse auth p now => (withUser st auth now (fun u => create_course st u p now)).2
  | Op.opEnroll auth cid now => (withUser st auth now (fun u => enroll_course st u cid now)).2
  | Op.opMarkAttendance auth p now =>
      (withUser st auth now (fun u => mark_attendance st u p now)).2
  | Op.opAddGrade auth p now => (withUser st auth now (fun u => add_grade st u p now)).2
  | Op.opAnnounce auth p now => (withUser st auth now (fun u => create_announcement st u p now)).2

/-- Run a sequence of requests. -/
def runOps (st : State) (ops : List Op) : State :=
  ops.foldl step st

end Main

namespace Backend

/-- Identity document of `src/backend/schemas.py` `Student`: the credential
field is named `password` and `src/backend/main.py` fills it with the
request's plaintext password; role defaults to "student". -/
structure Student where
  name : String
  email : String
  password : String
  role : String
  created_at : Nat
deriving Repr, DecidableEq

/-- Session document of `src/backend/schemas.py`: `student_id` is the
stringified owner id. -/
structure Session where
  student_id : String
  token : String
  expires_at : Nat
  created_at : Nat
deriving Repr, DecidableEq

/-- Course document of `src/backend/schemas.py`. -/
structure Course where
  title : String
  code : String
  description : Option String
  instructor : Option String
  created_at : Nat
deriving Repr, DecidableEq

/-- Enrollment document of `src/backend/schemas.py`. -/
structure Enrollment where
  student_id : String
  course_id : String
  created_at : Nat
deriving Repr, DecidableEq

/-- Attendance document of `src/backend/schemas.py`; constructing one with
a status other than "present" or "absent" fails pydantic's regex check. -/
structure Attendance where
  student_id : String
  course_id : String
  date : Nat
  status : String
deriving Repr, DecidableEq

/-- Grade document of `src/backend/schemas.py`. -/
structure Grade where
  student_id : String
  course_id : String
  grade : ℚ
  label : Option String
  created_at : Nat
deriving Repr, DecidableEq

/-- Announcement document of `src/backend/schemas.py`. -/
structure Announcement where
  course_id : String
  title : String
  content : String
  created_at : Nat
deriving Repr, DecidableEq

/-- Database state of the `Backend` variant. -/
structure State where
  students : List (Nat × Student)
  sessions : List Session
  courses : List (Nat × Course)
  enrollments : List Enrollment
  attendance : List Attendance
  grades : List Grade
  announcements : List Announcement
  nextId : Nat
deriving Repr, DecidableEq

/-- The empty database. -/
def State.empty : State :=
  ⟨[], [], [], [], [], [], [], 0⟩

/-- What `to_dict(user)` returns from the `Backend` gate: the whole stored
student document with its id stringified — credential field included. -/
structure UserDoc where
  id : String
  name : String
  email : String
  password : String
  role : String
  created_at : Nat
deriving Repr, DecidableEq

/-- The duplicate-email guard of the backend `register`. -/
def email_registered (st : State) (email : String) : Bool :=
  st.students.any (fun u => u.2.email == email)

/-- `register` of `src/backend/main.py` lines 80-91: the `Student` document
is built with `password=body.password` — the plaintext credential is stored
verbatim, no hash is ever computed in this variant. -/
def register (st : State) (payload : RegisterRequest) (token : String) (now : Nat) :
    Except Err SessionInfo × State :=
  if email_registered st payload.email then
    (Except.error ⟨400, "Email already registered"⟩, st)
  else
    let student : Student := ⟨payload.name, payload.email, payload.password, "student", now⟩
    let sid := st.nextId
    let st1 : State :=
      { st with students := st.students ++ [(sid, student)], nextId := st.nextId + 1 }
    let sess : Session := ⟨toString sid, token, now + 7 * 24 * 60 * 60, now⟩
    let st2 : State := { st1 with sessions := st1.sessions ++ [sess] }
    (Except.ok ⟨token, ⟨toString sid, student.name, student.email, student.role⟩⟩, st2)

/-- `login` of `src/backend/main.py` lines 93-101: the lookup matches the
stored `password` field against the plaintext directly. -/
def login (st : State) (payload : LoginRequest) (token : String) (now : Nat) :
    Except Err SessionInfo × State :=
  match st.students.find? (fun u => u.2.email == payload.email && u.2.password == payload.password) with
  | none => (Except.error ⟨401, "Invalid credentials"⟩, st)
  | some u =>
    let sess : Session := ⟨toString u.1, token, now + 7 * 24 * 60 * 60, now⟩
    (Except.ok ⟨token, ⟨toString u.1, u.2.name, u.2.email, u.2.role⟩⟩,
     { st with sessions := st.sessions ++ [sess] })

/-- `get_current_user` of `src/backend/main.py` lines 40-50: requires the
"Bearer " prefix, looks the token up together with `expires_at > now`, then
returns `to_dict(user)` — the full student document.  An unparseable stored
`student_id` would raise out of `ObjectId`, surfacing as a 500.  Read-only,
so the state is returned unchanged. -/
def get_current_user (st : State) (authorization : Option String) (now : Nat) :
    Except Err UserDoc × State :=
  match authorization with
  | none => (Except.error ⟨401, "Missing token"⟩, st)
  | some auth =>
    if pyStartsWith auth "Bearer " = false then
      (Except.error ⟨401, "Missing token"⟩, st)
    else
      match st.sessions.find?
          (fun s => s.token == String.mk (auth.data.drop 7) && now < s.expires_at) with
      | none => (Except.error ⟨401, "Invalid or expired token"⟩, st)
      | some sess =>
        match to_object_id sess.student_id with
        | none => (Except.error ⟨500, "Internal Server Error"⟩, st)
        | some sid =>
          match st.students.find? (fun u => u.1 == sid) with
          | none => (Except.error ⟨401, "User not found"⟩, st)
          | some u =>
            (Except.ok ⟨toString u.1, u.2.name, u.2.email, u.2.password, u.2.role, u.2.created_at⟩,
             st)

/-- Body of `POST /courses` in the `Backend` variant (the `Course` model
minus its defaulted timestamp). -/
structure CourseBody where
  title : String
  code : String
  description : Option String
  instructor : Option String
deriving Repr, DecidableEq

/-- `create_course` of `src/backend/main.py` lines 104-110: any
authenticated identity may create a course; there is no role check and no
code-uniqueness check. -/
def create_course (st : State) (_user : UserDoc) (payload : CourseBody) (now : Nat) :
    Except Err (String × Course) × State :=
  let course : Course :=
    ⟨payload.title, payload.code, payload.description, payload.instructor, now⟩
  let cid := st.nextId
  (Except.ok (toString cid, course),
   { st with courses := st.courses ++ [(cid, course)], nextId := st.nextId + 1 })

/-- The existing-enrollment lookup of the backend `enroll`. -/
def find_enrollment (st : State) (student_id course_id : String) : Option Enrollment :=
  st.enrollments.find? (fun e => e.student_id == student_id && e.course_id == course_id)

/-- `enroll` of `src/backend/main.py` lines 117-128: 404 if the course is
missing; if an enrollment for the pair exists it is returned unchanged
(idempotent), else a new one is inserted.  An unparseable id raises out of
`ObjectId` as a 500. -/
def enroll (st : State) (user : UserDoc) (course_id : String) (now : Nat) :
    Except Err Enrollment × State :=
  match to_object_id course_id with
  | none => (Except.error ⟨500, "Internal Server Error"⟩, st)
  | some oid =>
    match st.courses.find? (fun c => c.1 == oid) with
    | none => (Except.error ⟨404, "Course not found"⟩, st)
    | some _ =>
      match find_enrollment st user.id course_id with
      | some e => (Except.ok e, st)
      | none =>
        let e : Enrollment := ⟨user.id, course_id, now⟩
        (Except.ok e, { st with enrollments := st.enrollments ++ [e] })

/-- Body of `POST /attendance/mark` in the `Backend` variant. -/
structure AttendanceBody where
  course_id : String
  status : String
deriving Repr, DecidableEq

/-- `mark_attendance` of `src/backend/main.py` lines 141-149: 404 if the
course is missing, then the record is inserted; no enrollment is required.
Constructing the `Attendance` model applies the schema's status regex, a
failure of which raises as a 500. -/
def mark_attendance (st : State) (user : UserDoc) (payload : AttendanceBody) (now : Nat) :
    Except Err Attendance × State :=
  match to_object_id payload.course_id with
  | none => (Except.error ⟨500, "Internal Server Error"⟩, st)
  | some oid =>
    match st.courses.find? (fun c => c.1 == oid) with
    | none => (Except.error ⟨404, "Course not found"⟩, st)
    | some _ =>
      if payload.status == "present" || payload.status == "absent" then
        let att : Attendance := ⟨user.id, payload.course_id, now, payload.status⟩
        (Except.ok att, { st with attendance := st.attendance ++ [att] })
      else
        (Except.error ⟨500, "Internal Server Error"⟩, st)

/-- Body of `POST /grades` in the `Backend` variant. -/
structure GradeBody where
  course_id : String
  grade : ℚ
  label : Option String
deriving Repr, DecidableEq

/-- `add_grade` of `src/backend/main.py` lines 157-166: 404 if the course
is missing, then the grade is inserted; no enrollment is required. -/
def add_grade (st : State) (user : UserDoc) (payload : GradeBody) (now : Nat) :
    Except Err Grade × State :=
  match to_object_id payload.course_id with
  | none => (Except.error ⟨500, "Internal Server Error"⟩, st)
  | some oid =>
    match st.courses.find? (fun c => c.1 == oid) with
    | none => (Except.error ⟨404, "Course not found"⟩, st)
    | some _ =>
      let g : Grade := ⟨user.id, payload.course_id, payload.grade, payload.label, now⟩
      (Except.ok g, { st with grades := st.grades ++ [g] })

/-- Body of `POST /announcements` in the `Backend` variant. -/
structure AnnouncementBody where
  course_id : String
  title : String
  content : String
deriving Repr, DecidableEq

/-- `add_announcement` of `src/backend/main.py` lines 174-182. -/
def add_announcement (st : State) (_user : UserDoc) (payload : AnnouncementBody) (now : Nat) :
    Except Err Announcement × State :=
  match to_object_id payload.course_id with
  | none => (Except.error ⟨500, "Internal Server Error"⟩, st)
  | some oid =>
    match st.courses.find? (fun c => c.1 == oid) with
    | none => (Except.error ⟨404, "Course not found"⟩, st)
    | some _ =>
      let a : Announcement := ⟨payload.course_id, payload.title, payload.content, now⟩
      (Except.ok a, { st with announcements := st.announcements ++ [a] })

/-- The per-course average of `dashboard` in `src/backend/main.py` line
201: `sum(grades) / len(grades) if grades else 0` — the division is only
ever performed on a non-empty list. -/
def avg_of (grades : List ℚ) : ℚ :=
  if grades.isEmpty then 0
  else (grades.foldl (fun a b => a + b) 0) / ((grades.length : Nat) : ℚ)

/-- The grade documents of the backend `dashboard` for one caller and one
course id. -/
def grade_docs (st : State) (student_id course_id : String) : List Grade :=
  st.grades.filter (fun g => g.student_id == student_id && g.course_id == course_id)

/-- The progress loop of `dashboard` in `src/backend/main.py` lines
192-206: walk the caller's enrollments in order; an unparseable course id
raises (500), a missing course is skipped, and each found course yields an
attendance count and an average grade. -/
def progress_of (st : State) (student_id : String) :
    List Enrollment → Except Err (List ProgressEntry)
  | [] => Except.ok []
  | e :: rest =>
    match to_object_id e.course_id with
    | none => Except.error ⟨500, "Internal Server Error"⟩
    | some oid =>
      match st.courses.find? (fun c => c.1 == oid) with
      | none => progress_of st student_id rest
      | some _ =>
        match progress_of st student_id rest with
        | Except.error err => Except.error err
        | Except.ok tail =>
          Except.ok
            (⟨e.course_id,
              (st.attendance.filter
                (fun a => a.student_id == student_id && a.course_id == e.course_id)).length,
              avg_of ((grade_docs st student_id e.course_id).map (fun g => g.grade))⟩ :: tail)

/-- `dashboard` of `src/backend/main.py` lines 190-207, restricted to the
progress list it returns. -/
def dashboard (st : State) (user : UserDoc) : Except Err (List ProgressEntry) :=
  progress_of st user.id (st.enrollments.filter (fun e => e.student_id == user.id))

/-- Response of `POST /seed`. -/
structure SeedResponse where
  message : String
  count : Option Nat
deriving Repr, DecidableEq

/-- The three demo courses of `seed` in `src/backend/main.py` lines
214-218. -/
def demo_courses (now : Nat) : List Course :=
  [⟨"Intro to Programming", "CS101", some "Learn Python basics", some "Dr. Ada", now⟩,
   ⟨"Data Structures", "CS201", some "Arrays, Trees, Graphs", some "Dr. Knuth", now⟩,
   ⟨"Databases", "CS301", some "SQL/NoSQL fundamentals", some "Dr. Codd", now⟩]

/-- One `insert_one` into the course collection. -/
def insert_course (st : State) (c : Course) : State :=
  { st with courses := st.courses ++ [(st.nextId, c)], nextId := st.nextId + 1 }

/-- `seed` of `src/backend/main.py` lines 210-220: a no-op answering
"Already seeded" when any course exists, otherwise `insert_many` of the
three demo courses answering "Seeded" with their count. -/
def seed (st : State) (now : Nat) : SeedResponse × State :=
  if 0 < st.courses.length then
    (⟨"Already seeded", none⟩, st)
  else
    let demos := demo_courses now
    (⟨"Seeded", some demos.length⟩, demos.foldl insert_course st)

/-- One request to the `Backend` variant. -/
inductive Op where
  | opRegister (p : RegisterRequest) (token : String) (now : Nat)
  | opLogin (p : LoginRequest) (token : String) (now : Nat)
  | opCreateCourse (auth : Option String) (p : CourseBody) (now : Nat)
  | opEnroll (auth : Option String) (course_id : String) (now : Nat)
  | opMarkAttendance (auth : Option String) (p : AttendanceBody) (now : Nat)
  | opAddGrade (auth : Option String) (p : GradeBody) (now : Nat)
  | opAnnounce (auth : Option String) (p : AnnouncementBody) (now : Nat)
  | opSeed (now : Nat)

/-- Run an authenticated backend handler behind the gate. -/
def withUser {α : Type} (st : State) (auth : Option String) (now : Nat)
    (k : UserDoc → Except Err α × State) : Except Err α × State :=
  match (get_current_user st auth now).1 with
  | Except.error e => (Except.error e, st)
  | Except.ok u => k u

/-- State transition of one request of the `Backend` variant. -/
def step (st : State) : Op → State
  | Op.opRegister p token now => (register st p token now).2
  | Op.opLogin p token now => (login st p token now).2
  | Op.opCreateCourse auth p now => (withUser st auth now (fun u => create_course st u p now)).2
  | Op.opEnroll auth cid now => (withUser st auth now (fun u => enroll st u cid now)).2
  | Op.opMarkAttendance auth p now =>
      (withUser st auth now (fun u => mark_attendance st u p now)).2
  | Op.opAddGrade auth p now => (withUser st auth now (fun u => add_grade st u p now)).2
  | Op.opAnnounce auth p now => (withUser st auth now (fun u => add_announcement st u p now)).2
  | Op.opSeed now => (seed st now).2

/-- Run a sequence of requests. -/
def runOps (st : State) (ops : List Op) : State :=
  ops.foldl step st

end Backend

/-- The (student, course) pair identifying a `Main` enrollment. -/
def Main.enroll_key (e : Main.Enrollment) : String × String :=
  (e.student_id, e.course_id)

/-- The (student, course) pair identifying a `Backend` enrollment. -/
def Backend.enroll_key (e : Backend.Enrollment) : String × String :=
  (e.student_id, e.course_id)

/-! Concrete example data used by counterexamples and witnesses. -/

/-- A registered `Main` student. -/
def exStudentM : Main.Student :=
  ⟨"A", "a@x.com", hash_password "p1", "student", true, 0, 0⟩

/-- A `Main` state holding that student and one session for them whose
expiry timestamp is 100. -/
def exStateM : Main.State :=
  ⟨[(0, exStudentM)], [⟨0, "tok123", 100, 0⟩], [], [], [], [], [], 1⟩

/-- The identity view the `Main` gate resolves for that student. -/
def exViewM : UserView :=
  ⟨"0", "A", "a@x.com", "student"⟩

/-- `exStateM` with one course (id 1) and an enrollment of the student in
it. -/
def exStateM1 : Main.State :=
  { exStateM with
    courses := [(1, ⟨"C1", "T", none, none, none, 0, 0⟩)],
    enrollments := [⟨"0", "1", "enrolled", 0⟩],
    nextId := 2 }

/-- A registered `Backend` student; the stored credential is the plaintext
"p1", as the backend register writes it. -/
def exStudentB : Backend.Student :=
  ⟨"A", "a@x.com", "p1", "student", 0⟩

/-- A `Backend` state holding that student and one session for them whose
expiry timestamp is 100. -/
def exStateB : Backend.State :=
  ⟨[(0, exStudentB)], [⟨"0", "tok123", 100, 0⟩], [], [], [], [], [], 1⟩

/-- The document the `Backend` gate resolves for that student. -/
def exDocB : Backend.UserDoc :=
  ⟨"0", "A", "a@x.com", "p1", "student", 0⟩

/-- `exStateB` with one course (id 1) and no enrollments. -/
def exStateB1 : Backend.State :=
  { exStateB with courses := [(1, ⟨"T", "C1", none, none, 0⟩)], nextId := 2 }

/-- `exStateB1` with an enrollment of the student in course 1. -/
def exStateB2 : Backend.State :=
  { exStateB1 with enrollments := [⟨"0", "1", 0⟩] }

/-! Helper lemmas: which collections each handler can touch. -/

theorem hash_password_ne (p : String) : hash_password p ≠ p := by
  intro h
  have hlen : (hash_password p).length = 7 + p.length := by
    simp [hash_password, String.length_append]
    rfl
  rw [h] at hlen
  omega

theorem Main.main_login_students (st : Main.State) (p : LoginRequest) (tok : String) (now : Nat) :
    (Main.login st p tok now).2.students = st.students := by
  unfold Main.login
  repeat' split
  all_goals rfl

theorem Main.main_create_course_students (st : Main.State) (u : UserView) (p : Main.CourseCreate)
    (now : Nat) : (Main.create_course st u p now).2.students = st.students := by
  unfold Main.create_course
  repeat' split
  all_goals rfl

theorem Main.enroll_course_students (st : Main.State) (u : UserView) (cid : String) (now : Nat) :
    (Main.enroll_course st u cid now).2.students = st.students := by
  unfold Main.enroll_course
  repeat' split
  all_goals rfl

theorem Main.main_mark_attendance_students (st : Main.State) (u : UserView)
    (p : Main.AttendanceMarkRequest) (now : Nat) :
    (Main.mark_attendance st u p now).2.students = st.students := by
  unfold Main.mark_attendance
  repeat' split
  all_goals rfl

theorem Main.main_add_grade_students (st : Main.State) (u : UserView) (p : Main.GradeCreate)
    (now : Nat) : (Main.add_grade st u p now).2.students = st.students := by
  unfold Main.add_grade
  repeat' split
  all_goals rfl

theorem Main.create_announcement_students (st : Main.State) (u : UserView)
    (p : Main.AnnouncementCreate) (now : Nat) :
    (Main.create_announcement st u p now).2.students = st.students := by
  unfold Main.create_announcement
  repeat' split
  all_goals rfl

theorem Main.main_withUser_students {α : Type} (st : Main.State) (auth : Option String) (now : Nat)
    (k : UserView → Except Err α × Main.State)
    (h : ∀ u, (k u).2.students = st.students) :
    (Main.withUser st auth now k).2.students = st.students := by
  unfold Main.withUser
  split
  · rfl
  · apply h

theorem Main.main_register_students_append (st : Main.State) (p : RegisterRequest) (tok : String)
    (now : Nat) : ∃ l, (Main.register st p tok now).2.students = st.students ++ l := by
  unfold Main.register
  split
  · exact ⟨[], by simp⟩
  · exact ⟨_, rfl⟩

theorem Main.main_step_students_append (st : Main.State) (op : Main.Op) :
    ∃ l, (Main.step st op).students = st.students ++ l := by
  cases op with
  | opRegister p tok now => exact Main.main_register_students_append st p tok now
  | opLogin p tok now => exact ⟨[], by simp [Main.step, Main.main_login_students]⟩
  | opCreateCourse auth p now =>
    exact ⟨[], by
      simp only [Main.step, List.append_nil]
      exact Main.main_withUser_students st auth now _ (fun u => Main.main_create_course_students st u p now)⟩
  | opEnroll auth cid now =>
    exact ⟨[], by
      simp only [Main.step, List.append_nil]
      exact Main.main_withUser_students st auth now _ (fun u => Main.enroll_course_students st u cid now)⟩
  | opMarkAttendance auth p now =>
    exact ⟨[], by
      simp only [Main.step, List.append_nil]
      exact Main.main_withUser_students st auth now _ (fun u => Main.main_mark_attendance_students st u p now)⟩
  | opAddGrade auth p now =>
    exact ⟨[], by
      simp only [Main.step, List.append_nil]
      exact Main.main_withUser_students st auth now _ (fun u => Main.main_add_grade_students st u p now)⟩
  | opAnnounce auth p now =>
    exact ⟨[], by
      simp only [Main.step, List.append_nil]
      exact Main.main_withUser_students st auth now _
        (fun u => Main.create_announcement_students st u p now)⟩

theorem Main.main_email_registered_step (st : Main.State) (op : Main.Op) (e : String)
    (h : Main.email_registered st e = true) :
    Main.email_registered (Main.step st op) e = true := by
  obtain ⟨l, hl⟩ := Main.main_step_students_append st op
  unfold Main.email_registered at h ⊢
  rw [hl, List.any_append, h, Bool.true_or]

theorem Main.main_email_registered_runOps (st : Main.State) (ops : List Main.Op) (e : String)
    (h : Main.email_registered st e = true) :
    Main.email_registered (Main.runOps st ops) e = true := by
  induction ops generalizing st with
  | nil => exact h
  | cons op rest ih =>
    rw [Main.runOps, List.foldl_cons]
    exact ih (Main.step st op) (Main.main_email_registered_step st op e h)

theorem Backend.backend_login_students (st : Backend.State) (p : LoginRequest) (tok : String)
    (now : Nat) : (Backend.login st p tok now).2.students = st.students := by
  unfold Backend.login
  repeat' split
  all_goals rfl

theorem Backend.backend_create_course_students (st : Backend.State) (u : Backend.UserDoc)
    (p : Backend.CourseBody) (now : Nat) :
    (Backend.create_course st u p now).2.students = st.students := rfl

theorem Backend.enroll_students (st : Backend.State) (u : Backend.UserDoc) (cid : String)
    (now : Nat) : (Backend.enroll st u cid now).2.students = st.students := by
  unfold Backend.enroll
  repeat' split
  all_goals rfl

theorem Backend.backend_mark_attendance_students (st : Backend.State) (u : Backend.UserDoc)
    (p : Backend.AttendanceBody) (now : Nat) :
    (Backend.mark_attendance st u p now).2.students = st.students := by
  unfold Backend.mark_attendance
  repeat' split
  all_goals rfl

theorem Backend.backend_add_grade_students (st : Backend.State) (u : Backend.UserDoc)
    (p : Backend.GradeBody) (now : Nat) :
    (Backend.add_grade st u p now).2.students = st.students := by
  unfold Backend.add_grade
  repeat' split
  all_goals rfl

theorem Backend.add_announcement_students (st : Backend.State) (u : Backend.UserDoc)
    (p : Backend.AnnouncementBody) (now : Nat) :
    (Backend.add_announcement st u p now).2.students = st.students := by
  unfold Backend.add_announcement
  repeat' split
  all_goals rfl

theorem Backend.seed_students (st : Backend.State) (now : Nat) :
    (Backend.seed st now).2.students = st.students := by
  unfold Backend.seed
  split
  · rfl
  · rfl

theorem Backend.backend_withUser_students {α : Type} (st : Backend.State) (auth : Option String)
    (now : Nat) (k : Backend.UserDoc → Except Err α × Backend.State)
    (h : ∀ u, (k u).2.students = st.students) :
    (Backend.withUser st auth now k).2.students = st.students := by
  unfold Backend.withUser
  split
  · rfl
  · apply h

theorem Backend.backend_register_students_append (st : Backend.State) (p : RegisterRequest)
    (tok : String) (now : Nat) :
    ∃ l, (Backend.register st p tok now).2.students = st.students ++ l := by
  unfold Backend.register
  split
  · exact ⟨[], by simp⟩
  · exact ⟨_, rfl⟩

theorem Backend.backend_step_students_append (st : Backend.State) (op : Backend.Op) :
    ∃ l, (Backend.step st op).students = st.students ++ l := by
  cases op with
  | opRegister p tok now => exact Backend.backend_register_students_append st p tok now
  | opLogin p tok now => exact ⟨[], by simp [Backend.step, Backend.backend_login_students]⟩
  | opCreateCourse auth p now =>
    exact ⟨[], by
      simp only [Backend.step, List.append_nil]
      exact Backend.backend_withUser_students st auth now _
        (fun u => Backend.backend_create_course_students st u p now)⟩
  | opEnroll auth cid now =>
    exact ⟨[], by
      simp only [Backend.step, List.append_nil]
      exact Backend.backend_withUser_students st auth now _
        (fun u => Backend.enroll_students st u cid now)⟩
  | opMarkAttendance auth p now =>
    exact ⟨[], by
      simp only [Backend.step, List.append_nil]
      exact Backend.backend_withUser_students st auth now _
        (fun u => Backend.backend_mark_attendance_students st u p now)⟩
  | opAddGrade auth p now =>
    exact ⟨[], by
      simp only [Backend.step, List.append_nil]
      exact Backend.backend_withUser_students st auth now _
        (fun u => Backend.backend_add_grade_students st u p now)⟩
  | opAnnounce auth p now =>
    exact ⟨[], by
      simp only [Backend.step, List.append_nil]
      exact Backend.backend_withUser_students st auth now _
        (fun u => Backend.add_announcement_students st u p now)⟩
  | opSeed now => exact ⟨[], by simp [Backend.step, Backend.seed_students]⟩

theorem Backend.backend_email_registered_step (st : Backend.State) (op : Backend.Op) (e : String)
    (h : Backend.email_registered st e = true) :
    Backend.email_registered (Backend.step st op) e = true := by
  obtain ⟨l, hl⟩ := Backend.backend_step_students_append st op
  unfold Backend.email_registered at h ⊢
  rw [hl, List.any_append, h, Bool.true_or]

theorem Backend.backend_email_registered_runOps (st : Backend.State) (ops : List Backend.Op)
    (e : String) (h : Backend.email_registered st e = true) :
    Backend.email_registered (Backend.runOps st ops) e = true := by
  induction ops generalizing st with
  | nil => exact h
  | cons op rest ih =>
    rw [Backend.runOps, List.foldl_cons]
    exact ih (Backend.step st op) (Backend.backend_email_registered_step st op e h)

/-! Helper lemmas: uniqueness of (student, course) enrollment pairs. -/

theorem Main.main_not_enrolled_key (st : Main.State) (sid cid : String)
    (h : Main.already_enrolled st sid cid = false) :
    (sid, cid) ∉ st.enrollments.map Main.enroll_key := by
  unfold Main.already_enrolled at h
  intro hmem
  rw [List.mem_map] at hmem
  obtain ⟨e, he, hk⟩ := hmem
  have := List.any_eq_false.mp h e he
  unfold Main.enroll_key at hk
  have h1 : e.student_id = sid := congrArg Prod.fst hk
  have h2 : e.course_id = cid := congrArg Prod.snd hk
  simp [h1, h2] at this

theorem Main.main_nodup_key_append (l : List Main.Enrollment) (e : Main.Enrollment)
    (hn : (l.map Main.enroll_key).Nodup) (hm : Main.enroll_key e ∉ l.map Main.enroll_key) :
    ((l ++ [e]).map Main.enroll_key).Nodup := by
  rw [List.map_append, List.map_singleton, List.nodup_append]
  refine ⟨hn, List.nodup_singleton _, ?_⟩
  intro x hx hx1
  rw [List.mem_singleton] at hx1
  exact hm (hx1 ▸ hx)

theorem Main.enroll_course_key_nodup (st : Main.State) (u : UserView) (cid : String) (now : Nat)
    (h : (st.enrollments.map Main.enroll_key).Nodup) :
    (((Main.enroll_course st u cid now).2.enrollments).map Main.enroll_key).Nodup := by
  unfold Main.enroll_course
  repeat' split
  any_goals exact h
  rename_i hnot
  refine Main.main_nodup_key_append _ _ h ?_
  exact Main.main_not_enrolled_key st u.id cid (Bool.not_eq_true _ ▸ hnot)

theorem Main.main_register_enrollments (st : Main.State) (p : RegisterRequest) (tok : String)
    (now : Nat) : (Main.register st p tok now).2.enrollments = st.enrollments := by
  unfold Main.register
  split
  · rfl
  · rfl

theorem Main.main_login_enrollments (st : Main.State) (p : LoginRequest) (tok : String) (now : Nat) :
    (Main.login st p tok now).2.enrollments = st.enrollments := by
  unfold Main.login
  repeat' split
  all_goals rfl

theorem Main.main_create_course_enrollments (st : Main.State) (u : UserView) (p : Main.CourseCreate)
    (now : Nat) : (Main.create_course st u p now).2.enrollments = st.enrollments := by
  unfold Main.create_course
  repeat' split
  all_goals rfl

theorem Main.main_mark_attendance_enrollments (st : Main.State) (u : UserView)
    (p : Main.AttendanceMarkRequest) (now : Nat) :
    (Main.mark_attendance st u p now).2.enrollments = st.enrollments := by
  unfold Main.mark_attendance
  repeat' split
  all_goals rfl

theorem Main.main_add_grade_enrollments (st : Main.State) (u : UserView) (p : Main.GradeCreate)
    (now : Nat) : (Main.add_grade st u p now).2.enrollments = st.enrollments := by
  unfold Main.add_grade
  repeat' split
  all_goals rfl

theorem Main.create_announcement_enrollments (st : Main.State) (u : UserView)
    (p : Main.AnnouncementCreate) (now : Nat) :
    (Main.create_announcement st u p now).2.enrollments = st.enrollments := by
  unfold Main.create_announcement
  repeat' split
  all_goals rfl

theorem Main.main_step_key_nodup (st : Main.State) (op : Main.Op)
    (h : (st.enrollments.map Main.enroll_key).Nodup) :
    (((Main.step st op).enrollments).map Main.enroll_key).Nodup := by
  cases op with
  | opRegister p tok now =>
    simpa [Main.step, Main.main_register_enrollments] using h
  | opLogin p tok now =>
    simpa [Main.step, Main.main_login_enrollments] using h
  | opCreateCourse auth p now =>
    simp only [Main.step]
    unfold Main.withUser
    split
    · exact h
    · simpa [Main.main_create_course_enrollments] using h
  | opEnroll auth cid now =>
    simp only [Main.step]
    unfold Main.withUser
    split
    · exact h
    · exact Main.enroll_course_key_nodup st _ cid now h
  | opMarkAttendance auth p now =>
    simp only [Main.step]
    unfold Main.withUser
    split
    · exact h
    · simpa [Main.main_mark_attendance_enrollments] using h
  | opAddGrade auth p now =>
    simp only [Main.step]
    unfold Main.withUser
    split
    · exact h
    · simpa [Main.main_add_grade_enrollments] using h
  | opAnnounce auth p now =>
    simp only [Main.step]
    unfold Main.withUser
    split
    · exact h
    · simpa [Main.create_announcement_enrollments] using h

theorem Main.main_runOps_key_nodup (st : Main.State) (ops : List Main.Op)
    (h : (st.enrollments.map Main.enroll_key).Nodup) :
    (((Main.runOps st ops).enrollments).map Main.enroll_key).Nodup := by
  induction ops generalizing st with
  | nil => exact h
  | cons op rest ih =>
    rw [Main.runOps, List.foldl_cons]
    exact ih (Main.step st op) (Main.main_step_key_nodup st op h)

theorem Backend.backend_not_enrolled_key (st : Backend.State) (sid cid : String)
    (h : Backend.find_enrollment st sid cid = none) :
    (sid, cid) ∉ st.enrollments.map Backend.enroll_key := by
  unfold Backend.find_enrollment at h
  intro hmem
  rw [List.mem_map] at hmem
  obtain ⟨e, he, hk⟩ := hmem
  have := List.find?_eq_none.mp h e he
  unfold Backend.enroll_key at hk
  have h1 : e.student_id = sid := congrArg Prod.fst hk
  have h2 : e.course_id = cid := congrArg Prod.snd hk
  simp [h1, h2] at this

theorem Backend.backend_nodup_key_append (l : List Backend.Enrollment) (e : Backend.Enrollment)
    (hn : (l.map Backend.enroll_key).Nodup)
    (hm : Backend.enroll_key e ∉ l.map Backend.enroll_key) :
    ((l ++ [e]).map Backend.enroll_key).Nodup := by
  rw [List.map_append, List.map_singleton, List.nodup_append]
  refine ⟨hn, List.nodup_singleton _, ?_⟩
  intro x hx hx1
  rw [List.mem_singleton] at hx1
  exact hm (hx1 ▸ hx)

theorem Backend.enroll_key_nodup (st : Backend.State) (u : Backend.UserDoc) (cid : String)
    (now : Nat) (h : (st.enrollments.map Backend.enroll_key).Nodup) :
    (((Backend.enroll st u cid now).2.enrollments).map Backend.enroll_key).Nodup := by
  unfold Backend.enroll
  repeat' split
  any_goals exact h
  rename_i hnone
  refine Backend.backend_nodup_key_append _ _ h ?_
  exact Backend.backend_not_enrolled_key st u.id cid hnone

theorem Backend.backend_register_enrollments (st : Backend.State) (p : RegisterRequest) (tok : String)
    (now : Nat) : (Backend.register st p tok now).2.enrollments = st.enrollments := by
  unfold Backend.register
  split
  · rfl
  · rfl

theorem Backend.backend_login_enrollments (st : Backend.State) (p : LoginRequest) (tok : String)
    (now : Nat) : (Backend.login st p tok now).2.enrollments = st.enrollments := by
  unfold Backend.login
  repeat' split
  all_goals rfl

theorem Backend.backend_create_course_enrollments (st : Backend.State) (u : Backend.UserDoc)
    (p : Backend.CourseBody) (now : Nat) :
    (Backend.create_course st u p now).2.enrollments = st.enrollments := rfl

theorem Backend.backend_mark_attendance_enrollments (st : Backend.State) (u : Backend.UserDoc)
    (p : Backend.AttendanceBody) (now : Nat) :
    (Backend.mark_attendance st u p now).2.enrollments = st.enrollments := by
  unfold Backend.mark_attendance
  repeat' split
  all_goals rfl

theorem Backend.backend_add_grade_enrollments (st : Backend.State) (u : Backend.UserDoc)
    (p : Backend.GradeBody) (now : Nat) :
    (Backend.add_grade st u p now).2.enrollments = st.enrollments := by
  unfold Backend.add_grade
  repeat' split
  all_goals rfl

theorem Backend.add_announcement_enrollments (st : Backend.State) (u : Backend.UserDoc)
    (p : Backend.AnnouncementBody) (now : Nat) :
    (Backend.add_announcement st u p now).2.enrollments = st.enrollments := by
  unfold Backend.add_announcement
  repeat' split
  all_goals rfl

theorem Backend.seed_enrollments (st : Backend.State) (now : Nat) :
    (Backend.seed st now).2.enrollments = st.enrollments := by
  unfold Backend.seed
  split
  · rfl
  · rfl

theorem Backend.backend_step_key_nodup (st : Backend.State) (op : Backend.Op)
    (h : (st.enrollments.map Backend.enroll_key).Nodup) :
    (((Backend.step st op).enrollments).map Backend.enroll_key).Nodup := by
  cases op with
  | opRegister p tok now =>
    simpa [Backend.step, Backend.backend_register_enrollments] using h
  | opLogin p tok now =>
    simpa [Backend.step, Backend.backend_login_enrollments] using h
  | opCreateCourse auth p now =>
    simp only [Backend.step]
    unfold Backend.withUser
    split
    · exact h
    · simpa [Backend.backend_create_course_enrollments] using h
  | opEnroll auth cid now =>
    simp only [Backend.step]
    unfold Backend.withUser
    split
    · exact h
    · exact Backend.enroll_key_nodup st _ cid now h
  | opMarkAttendance auth p now =>
    simp only [Backend.step]
    unfold Backend.withUser
    split
    · exact h
    · simpa [Backend.backend_mark_attendance_enrollments] using h
  | opAddGrade auth p now =>
    simp only [Backend.step]
    unfold Backend.withUser
    split
    · exact h
    · simpa [Backend.backend_add_grade_enrollments] using h
  | opAnnounce auth p now =>
    simp only [Backend.step]
    unfold Backend.withUser
    split
    · exact h
    · simpa [Backend.add_announcement_enrollments] using h
  | opSeed now =>
    simpa [Backend.step, Backend.seed_enrollments] using h

theorem Backend.backend_runOps_key_nodup (st : Backend.State) (ops : List Backend.Op)
    (h : (st.enrollments.map Backend.enroll_key).Nodup) :
    (((Backend.runOps st ops).enrollments).map Backend.enroll_key).Nodup := by
  induction ops generalizing st with
  | nil => exact h
  | cons op rest ih =>
    rw [Backend.runOps, List.foldl_cons]
    exact ih (Backend.step st op) (Backend.backend_step_key_nodup st op h)

/-! Helper lemmas about `register`. -/

theorem Main.main_register_ok_fresh (st : Main.State) (p : RegisterRequest) (tok : String)
    (now : Nat) (r : SessionInfo) (st1 : Main.State)
    (h : Main.register st p tok now = (Except.ok r, st1)) :
    Main.email_registered st p.email = false := by
  by_contra hc
  rw [Bool.not_eq_false] at hc
  unfold Main.register at h
  simp [hc] at h

theorem Main.main_register_snd_email (st : Main.State) (p : RegisterRequest) (tok : String)
    (now : Nat) (hc : Main.email_registered st p.email = false) :
    Main.email_registered (Main.register st p tok now).2 p.email = true := by
  unfold Main.register
  rw [if_neg (by simp [hc])]
  unfold Main.email_registered
  simp [List.any_append]

theorem Backend.backend_register_ok_fresh (st : Backend.State) (p : RegisterRequest) (tok : String)
    (now : Nat) (r : SessionInfo) (st1 : Backend.State)
    (h : Backend.register st p tok now = (Except.ok r, st1)) :
    Backend.email_registered st p.email = false := by
  by_contra hc
  rw [Bool.not_eq_false] at hc
  unfold Backend.register at h
  simp [hc] at h

theorem Backend.backend_register_snd_email (st : Backend.State) (p : RegisterRequest) (tok : String)
    (now : Nat) (hc : Backend.email_registered st p.email = false) :
    Backend.email_registered (Backend.register st p tok now).2 p.email = true := by
  unfold Backend.register
  rw [if_neg (by simp [hc])]
  unfold Backend.email_registered
  simp [List.any_append]

/-! The claims. -/

/-- Claim C1, corrected.  In the `Main` variant the claim holds: a
registration with a fresh email creates exactly one identity record whose
credential field is the one-way hash of the supplied credential, and the
hash is never the plaintext; the record has no other credential-bearing
field.  (The `Backend` variant falsifies the original claim: see the
counterexample, which exhibits a register call storing the plaintext.) -/
theorem C1_register_stores_only_hash :
    ∀ (st : Main.State) (p : RegisterRequest) (tok : String) (now : Nat) (r : SessionInfo)
      (st1 : Main.State),
      Main.register st p tok now = (Except.ok r, st1) →
      st1.students = st.students ++
          [(st.nextId, ⟨p.name, p.email, hash_password p.password, "student", true, now, now⟩)]
        ∧ hash_password p.password ≠ p.password := by
  intro st p tok now r st1 h
  have hc := Main.main_register_ok_fresh st p tok now r st1 h
  have h2 : st1 = (Main.register st p tok now).2 := by rw [h]
  refine ⟨?_, hash_password_ne p.password⟩
  rw [h2]
  unfold Main.register
  rw [if_neg (by simp [hc])]

/-- Witness for C1 at a concrete fresh registration. -/
theorem C1_witness :
    (Main.register Main.State.empty ⟨"A", "a@x.com", "p1"⟩ "t1" 0).2.students
        = [] ++ [(0, ⟨"A", "a@x.com", hash_password "p1", "student", true, 0, 0⟩)]
      ∧ hash_password "p1" ≠ "p1" :=
  C1_register_stores_only_hash Main.State.empty ⟨"A", "a@x.com", "p1"⟩ "t1" 0 _ _ rfl

/-- Counterexample to C1 as stated: in the `Backend` variant a successful
registration with a fresh email stores the plaintext credential "p1"
verbatim in the identity store. -/
theorem C1_counterexample :
    (Backend.register Backend.State.empty ⟨"A", "a@x.com", "p1"⟩ "tok" 0).1
        = Except.ok ⟨"tok", ⟨"0", "A", "a@x.com", "student"⟩⟩
      ∧ ((Backend.register Backend.State.empty ⟨"A", "a@x.com", "p1"⟩ "tok" 0).2.students.map
          (fun u => u.2.password)) = ["p1"] :=
  ⟨rfl, rfl⟩

/-- Claim C2, corrected.  The `Main` gate rejects a token only when the
found session's expiry is strictly before the current time (a session
expiring exactly at the current instant is still accepted, falsifying the
original "at or before" claim — see the counterexample); the `Backend`
gate rejects when every session holding the token has expiry at or before
the current time.  In both variants the handler returns the state
unchanged: the expired session is rejected, never deleted. -/
theorem C2_expired_rejected_not_deleted :
    (∀ (st : Main.State) (a : String) (now : Nat) (sess : Main.Session),
        a ≠ "" →
        st.sessions.find? (fun s => s.token == pyStrip (pyReplace a "Bearer " "")) = some sess →
        sess.expires_at < now →
        Main.get_current_user st (some a) now = (Except.error ⟨401, "Token expired"⟩, st))
  ∧ (∀ (st : Backend.State) (a : String) (now : Nat),
        pyStartsWith a "Bearer " = true →
        (∀ sess ∈ st.sessions, sess.token = String.mk (a.data.drop 7) → sess.expires_at ≤ now) →
        Backend.get_current_user st (some a) now
          = (Except.error ⟨401, "Invalid or expired token"⟩, st)) := by
  constructor
  · intro st a now sess ha hfind hexp
    unfold Main.get_current_user
    simp [ha, hfind, hexp]
  · intro st a now hpre hall
    have hnone : st.sessions.find?
        (fun s => s.token == String.mk (a.data.drop 7) && decide (now < s.expires_at)) = none := by
      rw [List.find?_eq_none]
      intro x hx
      simp only [Bool.and_eq_true, beq_iff_eq, decide_eq_true_eq, not_and]
      intro h1 h2
      exact absurd h2 (not_lt.mpr (hall x hx h1))
    unfold Backend.get_current_user
    simp [hpre, hnone]

/-- Witness for C2 at concrete expired sessions in both variants. -/
theorem C2_witness :
    Main.get_current_user exStateM (some "Bearer tok123") 101
        = (Except.error ⟨401, "Token expired"⟩, exStateM)
  ∧ Backend.get_current_user exStateB (some "Bearer tok123") 100
        = (Except.error ⟨401, "Invalid or expired token"⟩, exStateB) := by
  constructor
  · exact C2_expired_rejected_not_deleted.1 exStateM "Bearer tok123" 101 ⟨0, "tok123", 100, 0⟩
      (by decide) rfl (by decide)
  · exact C2_expired_rejected_not_deleted.2 exStateB "Bearer tok123" 100 rfl (by decide)

/-- Counterexample to C2 as stated: the stored session of `exStateM` has
expiry timestamp 100, the current time is 100 — at (hence not after) the
expiry — yet the `Main` gate authenticates instead of failing with 401,
because line 63 of `src/main.py` compares with a strict `<`. -/
theorem C2_counterexample :
    Main.get_current_user exStateM (some "Bearer tok123") 100 = (Except.ok exViewM, exStateM) :=
  rfl

/-- Claim C3, corrected.  In the `Main` variant the claim holds: a
successful gate resolution returns exactly the view
{id, name, email, role} of a stored identity — the `UserView` record has
no credential field at all, so the credential hash is never returned.
(The `Backend` variant falsifies the original claim: its gate returns the
whole stored document, plaintext credential included — see the
counterexample.) -/
theorem C3_gate_returns_view :
    ∀ (st : Main.State) (auth : Option String) (now : Nat) (v : UserView),
      (Main.get_current_user st auth now).1 = Except.ok v →
      ∃ uid stu, (uid, stu) ∈ st.students
        ∧ v = ⟨toString uid, stu.name, stu.email, stu.role⟩ := by
  intro st auth now v h
  unfold Main.get_current_user at h
  repeat' split at h
  any_goals exact Except.noConfusion h
  rename_i u hfind
  refine ⟨u.1, u.2, List.mem_of_find?_eq_some hfind, ?_⟩
  have hv := Except.ok.inj h
  exact hv.symm

/-- Witness for C3 at a concrete authenticated request. -/
theorem C3_witness :
    ∃ uid stu, (uid, stu) ∈ exStateM.students
      ∧ exViewM = ⟨toString uid, stu.name, stu.email, stu.role⟩ :=
  C3_gate_returns_view exStateM (some "Bearer tok123") 50 exViewM rfl

/-- Counterexample to C3 as stated: the `Backend` gate resolves a valid,
unexpired token to the full stored document, whose `password` field holds
the stored credential "p1". -/
theorem C3_counterexample :
    (Backend.get_current_user exStateB (some "Bearer tok123") 50).1 = Except.ok exDocB
      ∧ exDocB.password = "p1" ∧ exStudentB.password = "p1" :=
  ⟨rfl, rfl, rfl⟩

/-- Claim C4, corrected.  In the `Main` variant the claim holds: course
creation by an authenticated identity whose role is not admin fails with
403 and leaves the state — in particular the course collection —
unchanged.  (The `Backend` variant falsifies the original claim: its
course creation has no role check at all — see the counterexample.) -/
theorem C4_create_course_admin_only :
    ∀ (st : Main.State) (u : UserView) (p : Main.CourseCreate) (now : Nat),
      u.role ≠ "admin" →
      Main.create_course st u p now
        = (Except.error ⟨403, "Only admin can create courses"⟩, st) := by
  intro st u p now h
  unfold Main.create_course
  rw [if_pos h]

/-- Witness for C4: a student-role caller is refused. -/
theorem C4_witness :
    Main.create_course exStateM exViewM ⟨"C9", "T9", none, none, none⟩ 0
      = (Except.error ⟨403, "Only admin can create courses"⟩, exStateM) :=
  C4_create_course_admin_only exStateM exViewM ⟨"C9", "T9", none, none, none⟩ 0 (by decide)

/-- Counterexample to C4 as stated: in the `Backend` variant an
authenticated identity with role "student" creates a course successfully,
and the course record is inserted. -/
theorem C4_counterexample :
    exDocB.role = "student"
      ∧ Backend.create_course exStateB exDocB ⟨"T", "C1", none, none⟩ 0
        = (Except.ok ("1", ⟨"T", "C1", none, none, 0⟩),
           { exStateB with courses := [(1, ⟨"T", "C1", none, none, 0⟩)], nextId := 2 }) :=
  ⟨rfl, rfl⟩

/-- Claim C5, confirmed for both variants.  If a registration succeeds,
then after any further sequence of requests, a registration with the same
email fails with 400 "Email already registered" and leaves the whole state
unchanged — no identity record is inserted.  (No operation of either
variant ever removes identity records, which the persistence lemmas
establish.) -/
theorem C5_duplicate_email_conflict :
    (∀ (st : Main.State) (p : RegisterRequest) (tok : String) (now : Nat) (r : SessionInfo)
        (st1 : Main.State),
        Main.register st p tok now = (Except.ok r, st1) →
        ∀ (ops : List Main.Op) (p2 : RegisterRequest) (tok2 : String) (now2 : Nat),
          p2.email = p.email →
          Main.register (Main.runOps st1 ops) p2 tok2 now2
            = (Except.error ⟨400, "Email already registered"⟩, Main.runOps st1 ops))
  ∧ (∀ (st : Backend.State) (p : RegisterRequest) (tok : String) (now : Nat) (r : SessionInfo)
        (st1 : Backend.State),
        Backend.register st p tok now = (Except.ok r, st1) →
        ∀ (ops : List Backend.Op) (p2 : RegisterRequest) (tok2 : String) (now2 : Nat),
          p2.email = p.email →
          Backend.register (Backend.runOps st1 ops) p2 tok2 now2
            = (Except.error ⟨400, "Email already registered"⟩, Backend.runOps st1 ops)) := by
  constructor
  · intro st p tok now r st1 h ops p2 tok2 now2 he
    have hc := Main.main_register_ok_fresh st p tok now r st1 h
    have h2 : st1 = (Main.register st p tok now).2 := by rw [h]
    have hemail : Main.email_registered st1 p.email = true := by
      rw [h2]
      exact Main.main_register_snd_email st p tok now hc
    have hfinal : Main.email_registered (Main.runOps st1 ops) p2.email = true := by
      rw [he]
      exact Main.main_email_registered_runOps st1 ops p.email hemail
    unfold Main.register
    rw [if_pos hfinal]
  · intro st p tok now r st1 h ops p2 tok2 now2 he
    have hc := Backend.backend_register_ok_fresh st p tok now r st1 h
    have h2 : st1 = (Backend.register st p tok now).2 := by rw [h]
    have hemail : Backend.email_registered st1 p.email = true := by
      rw [h2]
      exact Backend.backend_register_snd_email st p tok now hc
    have hfinal : Backend.email_registered (Backend.runOps st1 ops) p2.email = true := by
      rw [he]
      exact Backend.backend_email_registered_runOps st1 ops p.email hemail
    unfold Backend.register
    rw [if_pos hfinal]

/-- Witness for C5: registering "a@x.com" twice in a row, in each variant;
the second attempt fails with 400 and changes nothing. -/
theorem C5_witness :
    Main.register (Main.register Main.State.empty ⟨"A", "a@x.com", "p1"⟩ "t1" 0).2
        ⟨"B", "a@x.com", "p2"⟩ "t2" 1
      = (Except.error ⟨400, "Email already registered"⟩,
         (Main.register Main.State.empty ⟨"A", "a@x.com", "p1"⟩ "t1" 0).2)
  ∧ Backend.register (Backend.register Backend.State.empty ⟨"A", "a@x.com", "p1"⟩ "t1" 0).2
        ⟨"B", "a@x.com", "p2"⟩ "t2" 1
      = (Except.error ⟨400, "Email already registered"⟩,
         (Backend.register Backend.State.empty ⟨"A", "a@x.com", "p1"⟩ "t1" 0).2) := by
  constructor
  · have h := C5_duplicate_email_conflict.1 Main.State.empty ⟨"A", "a@x.com", "p1"⟩ "t1" 0
      _ _ rfl [] ⟨"B", "a@x.com", "p2"⟩ "t2" 1 rfl
    simpa [Main.runOps] using h
  · have h := C5_duplicate_email_conflict.2 Backend.State.empty ⟨"A", "a@x.com", "p1"⟩ "t1" 0
      _ _ rfl [] ⟨"B", "a@x.com", "p2"⟩ "t2" 1 rfl
    simpa [Backend.runOps] using h

/-- Claim C6, confirmed for both variants.  Re-enrolling an existing
(student, course) pair changes nothing — the `Main` variant rejects it with
400 "Already enrolled", the `Backend` variant returns the existing record —
and across any sequence of requests (enroll calls included) the enrollment
collection never acquires two records with the same (student, course)
pair. -/
theorem C6_enroll_at_most_once :
    (∀ (st : Main.State) (ops : List Main.Op),
        (st.enrollments.map Main.enroll_key).Nodup →
        (((Main.runOps st ops).enrollments).map Main.enroll_key).Nodup)
  ∧ (∀ (st : Main.State) (u : UserView) (cid : String) (now : Nat),
        Main.already_enrolled st u.id cid = true →
        (Main.enroll_course st u cid now).2 = st)
  ∧ (∀ (st : Main.State) (u : UserView) (cid : String) (now : Nat) (oid : Nat)
        (c : Nat × Main.Course),
        to_object_id cid = some oid →
        st.courses.find? (fun x => x.1 == oid) = some c →
        Main.already_enrolled st u.id cid = true →
        Main.enroll_course st u cid now = (Except.error ⟨400, "Already enrolled"⟩, st))
  ∧ (∀ (st : Backend.State) (ops : List Backend.Op),
        (st.enrollments.map Backend.enroll_key).Nodup →
        (((Backend.runOps st ops).enrollments).map Backend.enroll_key).Nodup)
  ∧ (∀ (st : Backend.State) (u : Backend.UserDoc) (cid : String) (now : Nat)
        (e : Backend.Enrollment),
        Backend.find_enrollment st u.id cid = some e →
        (Backend.enroll st u cid now).2 = st)
  ∧ (∀ (st : Backend.State) (u : Backend.UserDoc) (cid : String) (now : Nat) (oid : Nat)
        (c : Nat × Backend.Course) (e : Backend.Enrollment),
        to_object_id cid = some oid →
        st.courses.find? (fun x => x.1 == oid) = some c →
        Backend.find_enrollment st u.id cid = some e →
        Backend.enroll st u cid now = (Except.ok e, st)) := by
  refine ⟨fun st ops h => Main.main_runOps_key_nodup st ops h, ?_, ?_,
    fun st ops h => Backend.backend_runOps_key_nodup st ops h, ?_, ?_⟩
  · intro st u cid now h
    unfold Main.enroll_course
    repeat' split
    any_goals rfl
  · intro st u cid now oid c hoid hfind h
    unfold Main.enroll_course
    simp [hoid, hfind, h]
  · intro st u cid now e h
    unfold Backend.enroll
    repeat' split
    any_goals rfl
    rename_i hnone
    rw [h] at hnone
    exact Option.noConfusion hnone
  · intro st u cid now oid c e hoid hfind h
    unfold Backend.enroll
    simp [hoid, hfind, h]

/-- Witness for C6: re-enrolling the already enrolled pair ("0", "1") in
each variant, and duplicate-freedom of a concrete run. -/
theorem C6_witness :
    Main.enroll_course exStateM1 exViewM "1" 4 = (Except.error ⟨400, "Already enrolled"⟩, exStateM1)
  ∧ Backend.enroll exStateB2 exDocB "1" 4 = (Except.ok ⟨"0", "1", 0⟩, exStateB2)
  ∧ (((Main.runOps exStateM1 []).enrollments).map Main.enroll_key).Nodup := by
  refine ⟨?_, ?_, ?_⟩
  · exact C6_enroll_at_most_once.2.2.1 exStateM1 exViewM "1" 4 1
      (1, ⟨"C1", "T", none, none, none, 0, 0⟩) rfl rfl rfl
  · exact C6_enroll_at_most_once.2.2.2.2.2 exStateB2 exDocB "1" 4 1
      (1, ⟨"T", "C1", none, none, 0⟩) ⟨"0", "1", 0⟩ rfl rfl rfl
  · exact C6_enroll_at_most_once.1 exStateM1 [] (by decide)

/-- Claim C7, corrected.  The two variants each check only one of the two
conditions the original claim names: the `Main` variant fails with 400
exactly when the caller has no enrollment for the course (it never consults
the course collection), while the `Backend` variant fails with 404 exactly
when the course does not exist (it never requires an enrollment); in the
remaining cases each inserts an attendance record.  (The counterexample
shows the `Backend` variant succeeding for a caller with no enrollment.) -/
theorem C7_attendance_checks :
    (∀ (st : Main.State) (u : UserView) (p : Main.AttendanceMarkRequest) (now : Nat),
        (Main.already_enrolled st u.id p.course_id = false →
          Main.mark_attendance st u p now
            = (Except.error ⟨400, "Not enrolled in the course"⟩, st))
        ∧ (Main.already_enrolled st u.id p.course_id = true →
          Main.mark_attendance st u p now
            = (Except.ok "Attendance marked",
               { st with attendance := st.attendance ++ [⟨u.id, p.course_id, now, p.status⟩] })))
  ∧ (∀ (st : Backend.State) (u : Backend.UserDoc) (p : Backend.AttendanceBody) (now : Nat)
        (oid : Nat),
        to_object_id p.course_id = some oid →
        (st.courses.find? (fun c => c.1 == oid) = none →
          Backend.mark_attendance st u p now = (Except.error ⟨404, "Course not found"⟩, st))
        ∧ (∀ c, st.courses.find? (fun x => x.1 == oid) = some c →
            (p.status = "present" ∨ p.status = "absent") →
            Backend.mark_attendance st u p now
              = (Except.ok ⟨u.id, p.course_id, now, p.status⟩,
                 { st with attendance := st.attendance ++ [⟨u.id, p.course_id, now, p.status⟩] }))) := by
  constructor
  · intro st u p now
    constructor
    · intro h
      unfold Main.mark_attendance
      rw [if_neg (by simp [h])]
    · intro h
      unfold Main.mark_attendance
      rw [if_pos h]
  · intro st u p now oid hoid
    constructor
    · intro hnone
      unfold Backend.mark_attendance
      simp [hoid, hnone]
    · intro c hsome hst
      unfold Backend.mark_attendance
      rcases hst with h | h <;> simp [hoid, hsome, h]

/-- Witness for C7: a `Main` caller without enrollment is refused with 400,
and a `Backend` request for a missing course is refused with 404. -/
theorem C7_witness :
    Main.mark_attendance exStateM exViewM ⟨"1", "present"⟩ 3
        = (Except.error ⟨400, "Not enrolled in the course"⟩, exStateM)
  ∧ Backend.mark_attendance exStateB exDocB ⟨"1", "present"⟩ 3
        = (Except.error ⟨404, "Course not found"⟩, exStateB) := by
  constructor
  · exact (C7_attendance_checks.1 exStateM exViewM ⟨"1", "present"⟩ 3).1 rfl
  · exact (C7_attendance_checks.2 exStateB exDocB ⟨"1", "present"⟩ 3 1 rfl).1 rfl

/-- Counterexample to C7 as stated: in the `Backend` variant, an
authenticated caller with no enrollment for existing course 1 marks
attendance successfully and a record is inserted, instead of failing with
404 or 400. -/
theorem C7_counterexample :
    exStateB1.enrollments = []
      ∧ Backend.mark_attendance exStateB1 exDocB ⟨"1", "present"⟩ 3
        = (Except.ok ⟨"0", "1", 3, "present"⟩,
           { exStateB1 with attendance := [⟨"0", "1", 3, "present"⟩] }) :=
  ⟨rfl, rfl⟩

/-- For the `Main` dashboard: every progress entry whose grade-document
list is empty has average 0. -/
theorem Main.dashboard_avg_zero (st : Main.State) (u : UserView) (d : List ProgressEntry)
    (h : Main.dashboard st u = Except.ok d) :
    ∀ pr ∈ d, Main.grade_docs st u.id pr.course_id = [] → pr.avg_grade = 0 := by
  unfold Main.dashboard at h
  split at h
  · exact Except.noConfusion h
  · have hd := Except.ok.inj h
    intro pr hpr hg
    rw [← hd] at hpr
    obtain ⟨c, hc, hceq⟩ := List.mem_map.mp hpr
    subst hceq
    simp only [] at hg
    simp [Main.avg_of, hg]

/-- For the `Backend` progress loop: every produced entry whose
grade-document list is empty has average 0. -/
theorem Backend.progress_of_avg_zero (st : Backend.State) (sid : String)
    (l : List Backend.Enrollment) (d : List ProgressEntry)
    (h : Backend.progress_of st sid l = Except.ok d) :
    ∀ pr ∈ d, Backend.grade_docs st sid pr.course_id = [] → pr.avg_grade = 0 := by
  induction l generalizing d with
  | nil =>
    have hd := Except.ok.inj h
    intro pr hpr
    rw [← hd] at hpr
    exact absurd hpr (List.not_mem_nil pr)
  | cons e rest ih =>
    unfold Backend.progress_of at h
    split at h
    · exact Except.noConfusion h
    · split at h
      · exact ih _ h
      · split at h
        · exact Except.noConfusion h
        · rename_i tail htail
          have hd := Except.ok.inj h
          intro pr hpr hg
          rw [← hd] at hpr
          rcases List.mem_cons.mp hpr with hpr1 | hpr2
          · subst hpr1
            simp only [] at hg
            simp [Backend.avg_of, hg]
          · exact ih tail htail pr hpr2 hg

/-- Claim C8, confirmed for both variants.  A dashboard progress entry for
a course with no grade documents of the caller has average grade 0; the
divisor the `Main` average uses, `max len 1`, is never zero, and the
`Backend` average divides only when the grade list is non-empty, in which
case its divisor `len` is non-zero — no division by zero occurs. -/
theorem C8_dashboard_avg_empty_zero :
    (∀ (st : Main.State) (u : UserView) (d : List ProgressEntry),
        Main.dashboard st u = Except.ok d →
        ∀ pr ∈ d, Main.grade_docs st u.id pr.course_id = [] → pr.avg_grade = 0)
  ∧ (∀ gs : List ℚ, ((max gs.length 1 : Nat) : ℚ) ≠ 0)
  ∧ (∀ (st : Backend.State) (u : Backend.UserDoc) (d : List ProgressEntry),
        Backend.dashboard st u = Except.ok d →
        ∀ pr ∈ d, Backend.grade_docs st u.id pr.course_id = [] → pr.avg_grade = 0)
  ∧ (∀ gs : List ℚ, gs.isEmpty = false → ((gs.length : Nat) : ℚ) ≠ 0) := by
  refine ⟨fun st u d h => Main.dashboard_avg_zero st u d h, ?_, ?_, ?_⟩
  · intro gs
    rw [Nat.cast_ne_zero]
    omega
  · intro st u d h
    unfold Backend.dashboard at h
    exact Backend.progress_of_avg_zero st u.id _ d h
  · intro gs h
    rw [Nat.cast_ne_zero]
    cases gs with
    | nil => exact absurd h (by simp)
    | cons a l => simp

/-- Witness for C8: a caller enrolled in course 1 with zero grade records
gets average 0 on the dashboard, in each variant. -/
theorem C8_witness :
    Main.dashboard exStateM1 exViewM = Except.ok [⟨"1", 0, Main.avg_of []⟩]
  ∧ Main.avg_of [] = 0
  ∧ Backend.dashboard exStateB2 exDocB = Except.ok [⟨"1", 0, Backend.avg_of []⟩]
  ∧ Backend.avg_of [] = 0 := by
  refine ⟨rfl, ?_, rfl, ?_⟩
  · exact C8_dashboard_avg_empty_zero.1 exStateM1 exViewM [⟨"1", 0, Main.avg_of []⟩] rfl
      ⟨"1", 0, Main.avg_of []⟩ (by simp) rfl
  · exact C8_dashboard_avg_empty_zero.2.2.1 exStateB2 exDocB [⟨"1", 0, Backend.avg_of []⟩] rfl
      ⟨"1", 0, Backend.avg_of []⟩ (by simp) rfl

/-- When courses already exist, `seed` is a no-op. -/
theorem Backend.seed_nonempty (st : Backend.State) (now : Nat)
    (h : 0 < st.courses.length) :
    Backend.seed st now = (⟨"Already seeded", none⟩, st) := by
  unfold Backend.seed
  rw [if_pos h]

/-- After a `seed`, the course collection is non-empty, or the call was a
no-op on an already non-empty collection. -/
theorem Backend.seed_snd_courses (st : Backend.State) (now : Nat) :
    0 < (Backend.seed st now).2.courses.length ∨
      ((Backend.seed st now).2 = st ∧ 0 < st.courses.length) := by
  by_cases h : 0 < st.courses.length
  · right
    exact ⟨by rw [Backend.seed_nonempty st now h], h⟩
  · left
    unfold Backend.seed
    rw [if_neg h]
    simp [Backend.demo_courses, Backend.insert_course]

/-- Claim C9, confirmed (the seed endpoint exists only in the `Backend`
variant).  On an empty course collection, `seed` inserts exactly the three
demo courses and answers "Seeded" with count 3; on a non-empty collection
it inserts nothing and answers "Already seeded"; hence a second `seed` is
always a no-op and the state after two sequential seeds equals the state
after one. -/
theorem C9_seed_idempotent :
    (∀ (st : Backend.State) (now : Nat),
        st.courses = [] →
        Backend.seed st now
          = (⟨"Seeded", some 3⟩,
             { st with
               courses :=
                 [(st.nextId,
                   ⟨"Intro to Programming", "CS101", some "Learn Python basics",
                    some "Dr. Ada", now⟩),
                  (st.nextId + 1,
                   ⟨"Data Structures", "CS201", some "Arrays, Trees, Graphs",
                    some "Dr. Knuth", now⟩),
                  (st.nextId + 2,
                   ⟨"Databases", "CS301", some "SQL/NoSQL fundamentals",
                    some "Dr. Codd", now⟩)],
               nextId := st.nextId + 3 }))
  ∧ (∀ (st : Backend.State) (now : Nat), st.courses ≠ [] →
        Backend.seed st now = (⟨"Already seeded", none⟩, st))
  ∧ (∀ (st : Backend.State) (n1 n2 : Nat),
        (Backend.seed (Backend.seed st n1).2 n2).2 = (Backend.seed st n1).2) := by
  refine ⟨?_, ?_, ?_⟩
  · intro st now h
    unfold Backend.seed
    rw [if_neg (by simp [h])]
    simp only [Backend.demo_courses, Backend.insert_course, List.foldl_cons, List.foldl_nil,
      List.length_cons, List.length_nil]
    rw [h]
    simp
  · intro st now h
    exact Backend.seed_nonempty st now (List.length_pos.mpr h)
  · intro st n1 n2
    rcases Backend.seed_snd_courses st n1 with h | ⟨h, h2⟩
    · rw [Backend.seed_nonempty _ n2 h]
    · rw [h, Backend.seed_nonempty st n2 h2]

/-- Witness for C9: seeding the empty database, then seeding again. -/
theorem C9_witness :
    Backend.seed Backend.State.empty 0
        = (⟨"Seeded", some 3⟩,
           { Backend.State.empty with
             courses :=
               [(0, ⟨"Intro to Programming", "CS101", some "Learn Python basics",
                     some "Dr. Ada", 0⟩),
                (1, ⟨"Data Structures", "CS201", some "Arrays, Trees, Graphs",
                     some "Dr. Knuth", 0⟩),
                (2, ⟨"Databases", "CS301", some "SQL/NoSQL fundamentals",
                     some "Dr. Codd", 0⟩)],
             nextId := 3 })
  ∧ Backend.seed (Backend.seed Backend.State.empty 0).2 1
      = (⟨"Already seeded", none⟩, (Backend.seed Backend.State.empty 0).2)
  ∧ (Backend.seed (Backend.seed Backend.State.empty 0).2 1).2
      = (Backend.seed Backend.State.empty 0).2 := by
  refine ⟨?_, ?_, C9_seed_idempotent.2.2 Backend.State.empty 0 1⟩
  · exact C9_seed_idempotent.1 Backend.State.empty 0 rfl
  · exact C9_seed_idempotent.2.1 (Backend.seed Backend.State.empty 0).2 1 (by decide)

/-- Claim C10, corrected.  The `Backend` gate does enforce the bearer
scheme: a missing header or one not starting with "Bearer " yields 401 and
the guarded handler never runs.  The `Main` gate, however, rejects only a
missing or empty header: it strips any "Bearer " occurrences and treats
the remainder as the token, so a bare token without the bearer scheme also
authenticates (see the counterexample). -/
theorem C10_bearer_required :
    (∀ (st : Backend.State) (now : Nat),
        Backend.get_current_user st none now = (Except.error ⟨401, "Missing token"⟩, st))
  ∧ (∀ (st : Backend.State) (a : String) (now : Nat),
        pyStartsWith a "Bearer " = false →
        Backend.get_current_user st (some a) now = (Except.error ⟨401, "Missing token"⟩, st))
  ∧ (∀ (α : Type) (st : Backend.State) (now : Nat)
        (k : Backend.UserDoc → Except Err α × Backend.State),
        Backend.withUser st none now k = (Except.error ⟨401, "Missing token"⟩, st))
  ∧ (∀ (st : Main.State) (now : Nat),
        Main.get_current_user st none now
          = (Except.error ⟨401, "Missing Authorization header"⟩, st))
  ∧ (∀ (st : Main.State) (now : Nat),
        Main.get_current_user st (some "") now
          = (Except.error ⟨401, "Missing Authorization header"⟩, st)) := by
  refine ⟨fun st now => rfl, ?_, fun α st now k => rfl, fun st now => rfl, fun st now => rfl⟩
  intro st a now h
  unfold Backend.get_current_user
  simp [h]

/-- Witness for C10: a header not carrying the bearer scheme is rejected
by the `Backend` gate. -/
theorem C10_witness :
    Backend.get_current_user exStateB (some "tok123") 5
      = (Except.error ⟨401, "Missing token"⟩, exStateB) :=
  C10_bearer_required.2.1 exStateB "tok123" 5 rfl

/-- Counterexample to C10 as stated: the `Main` gate authenticates a
header that is a bare session token with no bearer scheme at all, instead
of failing with 401. -/
theorem C10_counterexample :
    Main.get_current_user exStateM (some "tok123") 5 = (Except.ok exViewM, exStateM) :=
  rfl

end SMS
